import Mathlib

/-!
Shallow embedding of the scoring core of the Fake_news_finder repository:
`SimpleRuleBasedDetector.analyze`, `TransformerBasedDetector.analyze`,
`FakeNewsDetector.predict`, `FakeNewsDetector.predict_batch`
(fake_news_detector.py) and `batch_mode` (detector_app.py).

Numbers are modelled as exact rationals; Python `round(x, 3)` is modelled as
rounding to the nearest multiple of 1/1000 (ties do not arise at any value
relevant below, so the tie-breaking rule is immaterial). Character predicates
(`isupper`, `isalpha`, whitespace) are modelled at their ASCII meaning, which
coincides with Python on the ASCII texts handled here.
-/

namespace FakeNews

/-- Whitespace characters recognised by Python str.split / str.strip (ASCII). -/
def pyIsSpace (c : Char) : Bool :=
  c = ' ' || c = '\t' || c = '\n' || c = '\r' || c = '\x0c' || c = '\x0b'

/-- Python text.strip(): drop leading and trailing whitespace. -/
def pyStrip (cs : List Char) : List Char :=
  ((cs.dropWhile pyIsSpace).reverse.dropWhile pyIsSpace).reverse

def wordsAux : List Char → Bool → Nat
  | [], _ => 0
  | c :: rest, inWord =>
    if pyIsSpace c then wordsAux rest false
    else (if inWord then 0 else 1) + wordsAux rest true

/-- Number of words of a text, as computed by Python len(text.split()). -/
def wordCount (cs : List Char) : Nat := wordsAux cs false

/-- Python text.lower() (ASCII letters). -/
def lowerList (cs : List Char) : List Char := cs.map Char.toLower

def startsWith : List Char → List Char → Bool
  | [], _ => true
  | _ :: _, [] => false
  | a :: as, b :: bs => (a = b) && startsWith as bs

/-- Substring containment: needle occurs contiguously in hay
(Python `needle in hay`, re.search of a literal pattern). -/
def occursIn (needle : List Char) : List Char → Bool
  | [] => needle.isEmpty
  | c :: rest => startsWith needle (c :: rest) || occursIn needle rest

/-- The apostrophe character. -/
def apos : Char := Char.ofNat 39

/-- The clickbait phrase "you won«apostrophe»t believe". -/
def youWontBelieve : List Char := "you won".toList ++ [apos] ++ "t believe".toList

def governmentPhrase : List Char :=
  "government doesn".toList ++ [apos] ++ "t want you to know".toList

/-- SimpleRuleBasedDetector.SENSATIONAL_WORDS (fake_news_detector.py lines 25-30). -/
def SENSATIONAL_WORDS : List (List Char) :=
  ["shocking".toList, "unbelievable".toList, youWontBelieve,
   "this will shock you".toList, "celebrities hate".toList, "doctors hate".toList,
   governmentPhrase, "one weird trick".toList,
   "number 7 will blow your mind".toList, "he did what?!".toList,
   "she secretly".toList, "he secretly".toList, "this is why".toList,
   "the truth about".toList]

/-- Count of sensational words contained in the lowercased text
(fake_news_detector.py line 49). -/
def sensationalCount (cs : List Char) : Nat :=
  (SENSATIONAL_WORDS.filter (fun w => occursIn w (lowerList cs))).length

def countChar (c : Char) (cs : List Char) : Nat := (cs.filter (fun d => d = c)).length

/-- text.count("!") / max(len(text.split()), 1)  (line 54). -/
def bangDensity (cs : List Char) : ℚ :=
  (countChar '!' cs : ℚ) / ((max (wordCount cs) 1 : ℕ) : ℚ)

def upperCount (cs : List Char) : Nat := (cs.filter (fun c => c.isUpper)).length

def alphaCount (cs : List Char) : Nat := (cs.filter (fun c => c.isAlpha)).length

/-- Uppercase letters / max(alphabetic letters, 1)  (line 59). -/
def capsDensity (cs : List Char) : ℚ :=
  (upperCount cs : ℚ) / ((max (alphaCount cs) 1 : ℕ) : ℚ)

def isBang (c : Char) : Bool := c = '!' || c = '?'

/-- re.search of the pattern matching 3 or more consecutive characters
each of which is an exclamation or question mark (line 35). -/
def hasTriplePunct : List Char → Bool
  | a :: b :: c :: rest =>
    (isBang a && isBang b && isBang c) || hasTriplePunct (b :: c :: rest)
  | _ => false

/-- Scores appended by the SUSPICIOUS_PATTERNS loop (lines 33-38 and 63-66),
in list order: the case-insensitive literal "all caps", 3-or-more consecutive
bang characters, the literal youWontBelieve phrase, the literal
"sponsored content". Each matching pattern appends 0.15. -/
def suspiciousScores (cs : List Char) : List ℚ :=
  (if occursIn "all caps".toList (lowerList cs) then [(3/20 : ℚ)] else []) ++
  (if hasTriplePunct cs then [(3/20 : ℚ)] else []) ++
  (if occursIn youWontBelieve (lowerList cs) then [(3/20 : ℚ)] else []) ++
  (if occursIn "sponsored content".toList (lowerList cs) then [(3/20 : ℚ)] else [])

/-- The full scores list built by SimpleRuleBasedDetector.analyze (lines 43-71). -/
def ruleScores (cs : List Char) : List ℚ :=
  (if 0 < sensationalCount cs then
     [min ((sensationalCount cs : ℚ) * (3/20)) (1/2)] else []) ++
  (if 1/20 < bangDensity cs then [min (bangDensity cs * 2) (3/10)] else []) ++
  (if 3/10 < capsDensity cs then [(1/5 : ℚ)] else []) ++
  suspiciousScores cs ++
  (if wordCount cs < 5 ∨ 500 < wordCount cs then [(1/10 : ℚ)] else [])

structure RuleResult where
  fake_score : ℚ
  method : String
deriving DecidableEq

/-- SimpleRuleBasedDetector.analyze (lines 43-74). -/
def ruleAnalyze (cs : List Char) : RuleResult :=
  { fake_score := min (ruleScores cs).sum 1, method := "rule-based" }

/-- Outcome of the external transformer pipeline: unavailable (pipeline is
None), an exception during the call, or a clean classification. -/
inductive ExternalOutcome where
  | unavailable : ExternalOutcome
  | failure : String → ExternalOutcome
  | ok : String → ℚ → ExternalOutcome
deriving DecidableEq

structure TransformerResult where
  fake_score : ℚ
  sentiment : Option String
  confidence : Option ℚ
  error : Option String
  method : String
deriving DecidableEq

/-- TransformerBasedDetector.analyze (lines 107-135), the pipeline call
abstracted as an ExternalOutcome. -/
def transformerAnalyze (e : ExternalOutcome) : TransformerResult :=
  match e with
  | .unavailable =>
      { fake_score := 1/2, sentiment := none, confidence := none,
        error := some "Model not loaded", method := "transformer" }
  | .failure msg =>
      { fake_score := 1/2, sentiment := none, confidence := none,
        error := some msg, method := "transformer" }
  | .ok lbl score =>
      let l := String.mk (lowerList lbl.toList)
      { fake_score := if l = "negative" then score else 1 - score,
        sentiment := some l, confidence := some score,
        error := none, method := "transformer" }

structure Details where
  rule_based : RuleResult
  transformer : Option TransformerResult
deriving DecidableEq

/-- The result dict of FakeNewsDetector.predict, with optional keys as
Option fields: the empty-text branch carries no method and no details,
the normal branch carries no error. -/
structure Verdict where
  fake_score : ℚ
  confidence : ℚ
  label : String
  method : Option String
  details : Option Details
  error : Option String
deriving DecidableEq

/-- Python round(x, 3): nearest multiple of 1/1000. -/
def round3 (q : ℚ) : ℚ := ((round (q * 1000) : ℤ) : ℚ) / 1000

/-- Python `not text or len(text.strip()) == 0`. -/
def isBlank (t : String) : Bool := (pyStrip t.toList).isEmpty

/-- The fused (pre-rounding) fake score computed inside predict
(lines 172-183): rule score, then the 60/40 weighted average when the
transformer is in use and its result carries no error key. -/
def fusedScore (useTransformer : Bool) (e : ExternalOutcome) (cs : List Char) : ℚ :=
  let base := (ruleAnalyze cs).fake_score
  if useTransformer then
    let tr := transformerAnalyze e
    if tr.error = none then (3/5) * base + (2/5) * tr.fake_score else base
  else base

/-- FakeNewsDetector.predict (lines 154-195). The constructor flag
use_transformer implies the transformer detector exists, so the guard
`self.use_transformer and self.transformer_detector` is the flag itself. -/
def predict (useTransformer : Bool) (e : ExternalOutcome) (text : String) : Verdict :=
  if isBlank text then
    { fake_score := 1/2, confidence := 0, label := "UNKNOWN",
      method := none, details := none, error := some "Empty text" }
  else
    let cs := text.toList
    let ruleResult := ruleAnalyze cs
    let tr : Option TransformerResult :=
      if useTransformer then some (transformerAnalyze e) else none
    let fs := fusedScore useTransformer e cs
    let conf := |fs - 1/2| * 2
    { fake_score := round3 fs,
      confidence := round3 conf,
      label := if 1/2 < fs then "FAKE" else "REAL",
      method := some (if useTransformer then "hybrid" else "rule-based"),
      details := some { rule_based := ruleResult, transformer := tr },
      error := none }

/-- FakeNewsDetector.predict_batch (lines 197-199): plain map, no filtering. -/
def predict_batch (useTransformer : Bool) (e : ExternalOutcome)
    (texts : List String) : List Verdict :=
  texts.map (predict useTransformer e)

def pyStripStr (t : String) : String := String.mk (pyStrip t.toList)

/-- batch_mode of detector_app.py (lines 114-131): strip each line, skip
blank lines, predict on the rest, keep input order. -/
def batchMode (useTransformer : Bool) (e : ExternalOutcome)
    (lines : List String) : List (String × Verdict) :=
  lines.filterMap (fun line =>
    let t := pyStripStr line
    if t = "" then none else some (t, predict useTransformer e t))

structure BatchSummary where
  total : Nat
  fake_count : Nat
  real_count : Nat
deriving DecidableEq

/-- The summary counts printed by batch_mode (lines 133-136). -/
def batchSummary (results : List (String × Verdict)) : BatchSummary :=
  let fake := (results.filter (fun p => p.2.label = "FAKE")).length
  { total := results.length, fake_count := fake,
    real_count := results.length - fake }

/-! Derived views of the five rule contributions (0 when a rule does not
trigger), so that the additive structure of ruleScores can be stated. -/

def sensContrib (cs : List Char) : ℚ :=
  if 0 < sensationalCount cs then min ((sensationalCount cs : ℚ) * (3/20)) (1/2) else 0

def bangContrib (cs : List Char) : ℚ :=
  if 1/20 < bangDensity cs then min (bangDensity cs * 2) (3/10) else 0

def capsContrib (cs : List Char) : ℚ :=
  if 3/10 < capsDensity cs then 1/5 else 0

def suspContrib (cs : List Char) : ℚ := (suspiciousScores cs).sum

def lenContrib (cs : List Char) : ℚ :=
  if wordCount cs < 5 ∨ 500 < wordCount cs then 1/10 else 0

/-- Number of SUSPICIOUS_PATTERNS (all four of them) matching the text. -/
def suspiciousMatchCount (cs : List Char) : Nat :=
  (if occursIn "all caps".toList (lowerList cs) then 1 else 0) +
  (if hasTriplePunct cs then 1 else 0) +
  (if occursIn youWontBelieve (lowerList cs) then 1 else 0) +
  (if occursIn "sponsored content".toList (lowerList cs) then 1 else 0)

/-- Modelled from the claim wording of C4 (for comparison with the source
definition suspiciousScores): a suspicious-pattern contribution drawn only
from the three patterns named there - 3-or-more consecutive bang characters,
the youWontBelieve phrase, and "sponsored content" - 0.15 each. -/
def suspiciousScoresClaimed (cs : List Char) : List ℚ :=
  (if hasTriplePunct cs then [(3/20 : ℚ)] else []) ++
  (if occursIn youWontBelieve (lowerList cs) then [(3/20 : ℚ)] else []) ++
  (if occursIn "sponsored content".toList (lowerList cs) then [(3/20 : ℚ)] else [])

/-- The hypothesis of C8: any classification confidence supplied by the
external collaborator lies in the unit interval. -/
def outcomeBounded : ExternalOutcome → Prop
  | .ok _ score => 0 ≤ score ∧ score ≤ 1
  | _ => True

/-! Helper lemmas shared by the claim theorems. -/

theorem ruleScores_sum_eq (cs : List Char) :
    (ruleScores cs).sum =
      sensContrib cs + bangContrib cs + capsContrib cs + suspContrib cs + lenContrib cs := by
  unfold ruleScores sensContrib bangContrib capsContrib suspContrib lenContrib
  split_ifs <;> simp [List.sum_append] <;> ring

theorem mem_ite_singleton {c : Prop} [Decidable c] {x s : ℚ}
    (hs : s ∈ (if c then [x] else [])) : s = x := by
  split at hs
  · simpa using hs
  · simp at hs

theorem bangDensity_nonneg (cs : List Char) : 0 ≤ bangDensity cs := by
  unfold bangDensity
  positivity

theorem ruleScores_nonneg (cs : List Char) : ∀ s ∈ ruleScores cs, 0 ≤ s := by
  intro s hs
  unfold ruleScores suspiciousScores at hs
  rcases List.mem_append.1 hs with hs | hs
  · rcases List.mem_append.1 hs with hs | hs
    · rcases List.mem_append.1 hs with hs | hs
      · rcases List.mem_append.1 hs with hs | hs
        · rw [mem_ite_singleton hs]
          exact le_min (by positivity) (by norm_num)
        · rw [mem_ite_singleton hs]
          exact le_min (by have := bangDensity_nonneg cs; linarith) (by norm_num)
      · rw [mem_ite_singleton hs]; norm_num
    · rcases List.mem_append.1 hs with hs | hs
      · rcases List.mem_append.1 hs with hs | hs
        · rcases List.mem_append.1 hs with hs | hs
          · rw [mem_ite_singleton hs]; norm_num
          · rw [mem_ite_singleton hs]; norm_num
        · rw [mem_ite_singleton hs]; norm_num
      · rw [mem_ite_singleton hs]; norm_num
  · rw [mem_ite_singleton hs]; norm_num

theorem ruleFake_nonneg (cs : List Char) : 0 ≤ (ruleAnalyze cs).fake_score :=
  le_min (List.sum_nonneg (ruleScores_nonneg cs)) (by norm_num)

theorem ruleFake_le_one (cs : List Char) : (ruleAnalyze cs).fake_score ≤ 1 :=
  min_le_right _ _

theorem transformerFake_bounds (e : ExternalOutcome) (he : outcomeBounded e) :
    0 ≤ (transformerAnalyze e).fake_score ∧ (transformerAnalyze e).fake_score ≤ 1 := by
  cases e with
  | unavailable => exact ⟨by norm_num [transformerAnalyze], by norm_num [transformerAnalyze]⟩
  | failure msg => exact ⟨by norm_num [transformerAnalyze], by norm_num [transformerAnalyze]⟩
  | ok lbl score =>
    obtain ⟨h0, h1⟩ := he
    simp only [transformerAnalyze]
    split_ifs <;> constructor <;> linarith

theorem fusedScore_bounds (u : Bool) (e : ExternalOutcome) (cs : List Char)
    (he : outcomeBounded e) :
    0 ≤ fusedScore u e cs ∧ fusedScore u e cs ≤ 1 := by
  have hr0 := ruleFake_nonneg cs
  have hr1 := ruleFake_le_one cs
  obtain ⟨ht0, ht1⟩ := transformerFake_bounds e he
  unfold fusedScore
  cases u with
  | false => exact ⟨hr0, hr1⟩
  | true =>
    simp only [if_true]
    split_ifs <;> constructor <;> linarith

theorem round3_nonneg {q : ℚ} (h : 0 ≤ q) : 0 ≤ round3 q := by
  unfold round3
  have h1 : (0 : ℤ) ≤ round (q * 1000) := by
    rw [round_eq]
    exact Int.le_floor.mpr (by push_cast; linarith)
  have h2 : (0 : ℚ) ≤ ((round (q * 1000) : ℤ) : ℚ) := by exact_mod_cast h1
  linarith

theorem round3_le_one {q : ℚ} (h : q ≤ 1) : round3 q ≤ 1 := by
  unfold round3
  have h1 : round (q * 1000) ≤ 1000 := by
    rw [round_eq]
    have : (⌊q * 1000 + 1/2⌋ : ℚ) ≤ q * 1000 + 1/2 := Int.floor_le _
    have hlt : (⌊q * 1000 + 1/2⌋ : ℚ) < 1001 := by linarith
    exact_mod_cast Int.lt_add_one_iff.mp (by exact_mod_cast hlt)
  have h2 : ((round (q * 1000) : ℤ) : ℚ) ≤ 1000 := by exact_mod_cast h1
  linarith

theorem predict_eq_of_not_blank (u : Bool) (e : ExternalOutcome) (t : String)
    (h : isBlank t = false) :
    predict u e t =
      { fake_score := round3 (fusedScore u e t.toList),
        confidence := round3 (|fusedScore u e t.toList - 1/2| * 2),
        label := if 1/2 < fusedScore u e t.toList then "FAKE" else "REAL",
        method := some (if u then "hybrid" else "rule-based"),
        details := some { rule_based := ruleAnalyze t.toList,
                          transformer := if u then some (transformerAnalyze e) else none },
        error := none } := by
  simp only [predict, h, Bool.false_eq_true, if_false]

/-! Evaluation lemmas: they reduce a concrete heuristic computation to
rational arithmetic over counts established at the Char/Nat level. -/

theorem sum_ite_singleton (c : Prop) [Decidable c] (x : ℚ) :
    (if c then [x] else []).sum = if c then x else 0 := by
  split_ifs <;> simp

theorem sensContrib_eval {cs : List Char} {n : ℕ} (h : sensationalCount cs = n) :
    sensContrib cs = if 0 < n then min ((n : ℚ) * (3/20)) (1/2) else 0 := by
  unfold sensContrib
  rw [h]

theorem bangContrib_eval {cs : List Char} {nb nw : ℕ}
    (hb : countChar '!' cs = nb) (hw : max (wordCount cs) 1 = nw) :
    bangContrib cs =
      if 1/20 < (nb : ℚ) / (nw : ℚ) then min ((nb : ℚ) / (nw : ℚ) * 2) (3/10) else 0 := by
  unfold bangContrib bangDensity
  rw [hb, hw]

theorem capsContrib_eval {cs : List Char} {nu na : ℕ}
    (hu : upperCount cs = nu) (ha : max (alphaCount cs) 1 = na) :
    capsContrib cs = if 3/10 < (nu : ℚ) / (na : ℚ) then (1/5 : ℚ) else 0 := by
  unfold capsContrib capsDensity
  rw [hu, ha]

theorem suspContrib_eval {cs : List Char} {b1 b2 b3 b4 : Bool}
    (h1 : occursIn "all caps".toList (lowerList cs) = b1)
    (h2 : hasTriplePunct cs = b2)
    (h3 : occursIn youWontBelieve (lowerList cs) = b3)
    (h4 : occursIn "sponsored content".toList (lowerList cs) = b4) :
    suspContrib cs =
      (if b1 then (3/20 : ℚ) else 0) + (if b2 then (3/20 : ℚ) else 0) +
      (if b3 then (3/20 : ℚ) else 0) + (if b4 then (3/20 : ℚ) else 0) := by
  unfold suspContrib suspiciousScores
  rw [h1, h2, h3, h4]
  simp only [List.sum_append, sum_ite_singleton]

theorem lenContrib_eval {cs : List Char} {nw : ℕ} (hw : wordCount cs = nw) :
    lenContrib cs = if nw < 5 ∨ 500 < nw then (1/10 : ℚ) else 0 := by
  unfold lenContrib
  rw [hw]

theorem ruleFake_of_sum {cs : List Char} {q : ℚ} (h : (ruleScores cs).sum = q) :
    (ruleAnalyze cs).fake_score = min q 1 := by
  show min (ruleScores cs).sum 1 = min q 1
  rw [h]

theorem round3_eval {q : ℚ} {z : ℤ} (h1 : (z : ℚ) ≤ q * 1000 + 1/2)
    (h2 : q * 1000 + 1/2 < z + 1) :
    round3 q = (z : ℚ) / 1000 := by
  unfold round3
  rw [round_eq, Int.floor_eq_iff.mpr ⟨h1, h2⟩]

/-! Concrete texts used by witnesses and counterexamples. -/

def cityText : String := "The city council approved a new transportation plan."

def sevenWordsBang : String := "alpha beta gamma delta epsilon zeta eta!"

def allCapsText : String := "the memo was written in all caps again"

def wontBelieveText : String := String.mk youWontBelieve

def plainSix : String := "aaa bbb ccc ddd eee fff"

def plainSeven : String := "shocking aaa bbb ccc ddd eee fff"

/-! Concrete heuristic scores. -/

theorem ruleFake_city : (ruleAnalyze cityText.toList).fake_score = 0 := by
  have hs : (ruleScores cityText.toList).sum = 0 := by
    rw [ruleScores_sum_eq,
      sensContrib_eval (show sensationalCount cityText.toList = 0 by decide),
      bangContrib_eval (show countChar '!' cityText.toList = 0 by decide)
        (show max (wordCount cityText.toList) 1 = 8 by decide),
      capsContrib_eval (show upperCount cityText.toList = 1 by decide)
        (show max (alphaCount cityText.toList) 1 = 44 by decide),
      suspContrib_eval
        (show occursIn "all caps".toList (lowerList cityText.toList) = false by decide)
        (show hasTriplePunct cityText.toList = false by decide)
        (show occursIn youWontBelieve (lowerList cityText.toList) = false by decide)
        (show occursIn "sponsored content".toList (lowerList cityText.toList) = false
          by decide),
      lenContrib_eval (show wordCount cityText.toList = 8 by decide)]
    norm_num
  rw [ruleFake_of_sum hs]
  norm_num

theorem ruleFake_sevenBang : (ruleAnalyze sevenWordsBang.toList).fake_score = 2/7 := by
  have hs : (ruleScores sevenWordsBang.toList).sum = 2/7 := by
    rw [ruleScores_sum_eq,
      sensContrib_eval (show sensationalCount sevenWordsBang.toList = 0 by decide),
      bangContrib_eval (show countChar '!' sevenWordsBang.toList = 1 by decide)
        (show max (wordCount sevenWordsBang.toList) 1 = 7 by decide),
      capsContrib_eval (show upperCount sevenWordsBang.toList = 0 by decide)
        (show max (alphaCount sevenWordsBang.toList) 1 = 33 by decide),
      suspContrib_eval
        (show occursIn "all caps".toList (lowerList sevenWordsBang.toList) = false by decide)
        (show hasTriplePunct sevenWordsBang.toList = false by decide)
        (show occursIn youWontBelieve (lowerList sevenWordsBang.toList) = false by decide)
        (show occursIn "sponsored content".toList (lowerList sevenWordsBang.toList) = false
          by decide),
      lenContrib_eval (show wordCount sevenWordsBang.toList = 7 by decide)]
    norm_num [min_def]
  rw [ruleFake_of_sum hs]
  norm_num [min_def]

theorem ruleFake_wontBelieve : (ruleAnalyze wontBelieveText.toList).fake_score = 2/5 := by
  have hs : (ruleScores wontBelieveText.toList).sum = 2/5 := by
    rw [ruleScores_sum_eq,
      sensContrib_eval (show sensationalCount wontBelieveText.toList = 1 by decide),
      bangContrib_eval (show countChar '!' wontBelieveText.toList = 0 by decide)
        (show max (wordCount wontBelieveText.toList) 1 = 3 by decide),
      capsContrib_eval (show upperCount wontBelieveText.toList = 0 by decide)
        (show max (alphaCount wontBelieveText.toList) 1 = 14 by decide),
      suspContrib_eval
        (show occursIn "all caps".toList (lowerList wontBelieveText.toList) = false by decide)
        (show hasTriplePunct wontBelieveText.toList = false by decide)
        (show occursIn youWontBelieve (lowerList wontBelieveText.toList) = true by decide)
        (show occursIn "sponsored content".toList (lowerList wontBelieveText.toList) = false
          by decide),
      lenContrib_eval (show wordCount wontBelieveText.toList = 3 by decide)]
    norm_num [min_def]
  rw [ruleFake_of_sum hs]
  norm_num [min_def]

/-! The claims. -/

/-- C1, counterexample: with the transformer requested but unavailable (its
result carries the error "Model not loaded"), the verdict's method field is
"hybrid", not "rule-based" as the claim requires on error/unavailability. -/
theorem claim_C1_counterexample :
    (predict true .unavailable cityText).method = some "hybrid" ∧
    (predict true .unavailable cityText).method ≠ some "rule-based" := by
  constructor <;> decide

/-- C1, amended: for every non-empty text, when the external classifier is
requested but unavailable or its classification call errors, the fused score
equals the heuristic score unchanged (only rounding is applied), but the
method field is "hybrid" whenever the transformer was requested, regardless
of whether a classification was actually used. -/
theorem claim_C1 (e : ExternalOutcome) (he : (transformerAnalyze e).error ≠ none)
    (t : String) (h : isBlank t = false) :
    (predict true e t).fake_score = round3 (ruleAnalyze t.toList).fake_score ∧
    (predict true e t).method = some "hybrid" := by
  rw [predict_eq_of_not_blank true e t h]
  refine ⟨?_, rfl⟩
  have hfu : fusedScore true e t.toList = (ruleAnalyze t.toList).fake_score := by
    unfold fusedScore
    simp [he]
  rw [hfu]

/-- Witness for C1 at the transformer-unavailable outcome and a concrete
non-empty text. -/
theorem claim_C1_witness :
    (transformerAnalyze .unavailable).error ≠ none ∧
    isBlank cityText = false ∧
    ((predict true .unavailable cityText).fake_score =
        round3 (ruleAnalyze cityText.toList).fake_score ∧
      (predict true .unavailable cityText).method = some "hybrid") :=
  ⟨by decide, by decide, claim_C1 .unavailable (by decide) cityText (by decide)⟩

/-- C2: batch mode strips each line and skips blank lines, so they appear in
neither the output sequence nor the summary counts; on the input
["", "Real headline.", "  "] the output has exactly the one verdict for
"Real headline." and the summary total is 1. -/
theorem claim_C2 :
    (∀ (u : Bool) (e : ExternalOutcome) (lines : List String),
      batchMode u e lines =
        ((lines.map pyStripStr).filter (fun t => !(t == ""))).map
          (fun t => (t, predict u e t))) ∧
    (batchMode false .unavailable ["", "Real headline.", "  "]).map Prod.fst =
      ["Real headline."] ∧
    (batchSummary (batchMode false .unavailable ["", "Real headline.", "  "])).total = 1 := by
  refine ⟨?_, by decide, by decide⟩
  intro u e lines
  induction lines with
  | nil => rfl
  | cons l ls ih =>
    simp only [batchMode] at ih ⊢
    simp only [List.filterMap_cons, List.map_cons, List.filter_cons]
    by_cases h : pyStripStr l = ""
    · simp [h, ih]
    · simp [h, ih]

/-- C3, counterexample: on a seven-word text with one exclamation mark the
heuristic score is 2/7, so the verdict stores fake_score 0.286 and confidence
0.429, while the claimed identity on the rounded fields would demand
confidence 0.428. -/
theorem claim_C3_counterexample :
    (predict false .unavailable sevenWordsBang).confidence ≠
      |(predict false .unavailable sevenWordsBang).fake_score - 1/2| * 2 := by
  rw [predict_eq_of_not_blank false .unavailable sevenWordsBang (by decide)]
  dsimp only
  have hf : fusedScore false .unavailable sevenWordsBang.toList = 2/7 := by
    show (ruleAnalyze sevenWordsBang.toList).fake_score = 2/7
    exact ruleFake_sevenBang
  rw [hf]
  have habs : |(2 : ℚ)/7 - 1/2| * 2 = 3/7 := by
    rw [abs_of_nonpos (by norm_num)]
    norm_num
  rw [habs, round3_eval (z := 429) (by norm_num) (by norm_num),
    round3_eval (z := 286) (by norm_num) (by norm_num)]
  rw [abs_of_nonpos (by norm_num)]
  norm_num

/-- C3, amended: for every verdict on non-blank input, the identity
confidence = |fake_score - 0.5| x 2 holds between the full-precision values,
and fake_score and confidence are each obtained by rounding those values to
3 decimals independently; the identity need not survive the rounding. -/
theorem claim_C3 (u : Bool) (e : ExternalOutcome) (t : String) (h : isBlank t = false) :
    (predict u e t).fake_score = round3 (fusedScore u e t.toList) ∧
    (predict u e t).confidence = round3 (|fusedScore u e t.toList - 1/2| * 2) := by
  rw [predict_eq_of_not_blank u e t h]
  exact ⟨rfl, rfl⟩

/-- Witness for C3 at a concrete non-blank text. -/
theorem claim_C3_witness :
    isBlank sevenWordsBang = false ∧
    ((predict false .unavailable sevenWordsBang).fake_score =
        round3 (fusedScore false .unavailable sevenWordsBang.toList) ∧
      (predict false .unavailable sevenWordsBang).confidence =
        round3 (|fusedScore false .unavailable sevenWordsBang.toList - 1/2| * 2)) :=
  ⟨by decide, claim_C3 false .unavailable sevenWordsBang (by decide)⟩

/-- C4, counterexample: the text "the memo was written in all caps again"
matches none of the three patterns the claim allows, yet the code's
suspicious-pattern loop contributes 0.15 for it, because the source list also
holds the fourth literal pattern "all caps". -/
theorem claim_C4_counterexample :
    (suspiciousScores allCapsText.toList).sum = 3/20 ∧
    (suspiciousScoresClaimed allCapsText.toList).sum = 0 := by
  constructor
  · have h := suspContrib_eval
      (show occursIn "all caps".toList (lowerList allCapsText.toList) = true by decide)
      (show hasTriplePunct allCapsText.toList = false by decide)
      (show occursIn youWontBelieve (lowerList allCapsText.toList) = false by decide)
      (show occursIn "sponsored content".toList (lowerList allCapsText.toList) = false
        by decide)
    unfold suspContrib at h
    rw [h]
    norm_num
  · unfold suspiciousScoresClaimed
    rw [show hasTriplePunct allCapsText.toList = false by decide,
      show occursIn youWontBelieve (lowerList allCapsText.toList) = false by decide,
      show occursIn "sponsored content".toList (lowerList allCapsText.toList) = false
        by decide]
    simp

/-- C4, amended: the suspicious-pattern rule contributes exactly 0.15 per
matching pattern drawn from the four case-insensitive patterns of the source
(the literal "all caps", 3-or-more consecutive bang characters, the
youWontBelieve phrase, the literal "sponsored content"), each distinct
matching pattern adding its own 0.15, uncapped individually and capped only
by the overall sum clamp at 1.0. -/
theorem claim_C4 (cs : List Char) :
    (suspiciousScores cs).sum = (suspiciousMatchCount cs : ℚ) * (3/20) ∧
    (ruleAnalyze cs).fake_score = min (ruleScores cs).sum 1 := by
  refine ⟨?_, rfl⟩
  unfold suspiciousScores suspiciousMatchCount
  split_ifs <;> norm_num [List.sum_append]

/-- C5: every empty or whitespace-only input yields the verdict with label
UNKNOWN, fake_score 0.5, confidence 0.0 and error "Empty text", carrying no
heuristic details and no fusion, regardless of the external collaborator. -/
theorem claim_C5 (u : Bool) (e : ExternalOutcome) (t : String) (h : isBlank t = true) :
    predict u e t =
      { fake_score := 1/2, confidence := 0, label := "UNKNOWN",
        method := none, details := none, error := some "Empty text" } := by
  simp [predict, h]

/-- Witness for C5 at the whitespace-only text "  " with the collaborator
present and clean. -/
theorem claim_C5_witness :
    isBlank "  " = true ∧
    predict true (.ok "negative" (1/2)) "  " =
      { fake_score := 1/2, confidence := 0, label := "UNKNOWN",
        method := none, details := none, error := some "Empty text" } :=
  ⟨by decide, claim_C5 true (.ok "negative" (1/2)) "  " (by decide)⟩

/-- C6: for non-blank text with a present and clean external classification,
the verdict's fake_score is the rounding of
0.6 x heuristic + 0.4 x external_fake, where external_fake is the
classification confidence when the lowercased label is "negative" and one
minus it otherwise, and the method is "hybrid". -/
theorem claim_C6 (t : String) (h : isBlank t = false) (lbl : String) (conf : ℚ) :
    (predict true (.ok lbl conf) t).fake_score =
      round3 ((3/5) * (ruleAnalyze t.toList).fake_score +
        (2/5) * (if String.mk (lowerList lbl.toList) = "negative" then conf
                 else 1 - conf)) ∧
    (predict true (.ok lbl conf) t).method = some "hybrid" := by
  rw [predict_eq_of_not_blank true (.ok lbl conf) t h]
  exact ⟨rfl, rfl⟩

/-- Witness for C6: external label "negative" with confidence 0.9 and the
heuristic score 0.4 of the youWontBelieve text fuse to 0.60, label FAKE. -/
theorem claim_C6_witness :
    isBlank wontBelieveText = false ∧
    (ruleAnalyze wontBelieveText.toList).fake_score = 2/5 ∧
    (predict true (.ok "negative" (9/10)) wontBelieveText).fake_score = 3/5 ∧
    (predict true (.ok "negative" (9/10)) wontBelieveText).label = "FAKE" := by
  have hneg : String.mk (lowerList ("negative" : String).toList) = "negative" := by decide
  refine ⟨by decide, ruleFake_wontBelieve, ?_, ?_⟩
  · have h := (claim_C6 wontBelieveText (by decide) "negative" (9/10)).1
    rw [h, ruleFake_wontBelieve, if_pos hneg]
    have harith : (3 : ℚ)/5 * (2/5) + 2/5 * (9/10) = 3/5 := by norm_num
    rw [harith, round3_eval (z := 600) (by norm_num) (by norm_num)]
    norm_num
  · rw [predict_eq_of_not_blank true (.ok "negative" (9/10)) wontBelieveText (by decide)]
    dsimp only
    have hf : fusedScore true (.ok "negative" (9/10)) wontBelieveText.toList = 3/5 := by
      show (3 : ℚ)/5 * (ruleAnalyze wontBelieveText.toList).fake_score +
        2/5 * (if String.mk (lowerList ("negative" : String).toList) = "negative"
               then (9 : ℚ)/10 else 1 - 9/10) = 3/5
      rw [ruleFake_wontBelieve, if_pos hneg]
      norm_num
    rw [hf, if_pos (show (1 : ℚ)/2 < 3/5 by norm_num)]

/-- C7: for every verdict produced from non-blank input, the label is FAKE
iff the fused fake score is strictly greater than 0.5, and REAL otherwise;
in particular a fused score of exactly 0.5 yields REAL. -/
theorem claim_C7 (u : Bool) (e : ExternalOutcome) (t : String) (h : isBlank t = false) :
    ((predict u e t).label = "FAKE" ↔ 1/2 < fusedScore u e t.toList) ∧
    (¬ 1/2 < fusedScore u e t.toList → (predict u e t).label = "REAL") := by
  rw [predict_eq_of_not_blank u e t h]
  dsimp only
  by_cases hc : 1/2 < fusedScore u e t.toList
  · rw [if_pos hc]
    exact ⟨⟨fun _ => hc, fun _ => rfl⟩, fun hcon => absurd hc hcon⟩
  · rw [if_neg hc]
    exact ⟨⟨fun hl => absurd hl (by decide), fun hlt => absurd hlt hc⟩, fun _ => rfl⟩

/-- Witness for C7 at a concrete non-blank text with heuristic score 0. -/
theorem claim_C7_witness :
    ((predict false .unavailable cityText).label = "FAKE" ↔
      1/2 < fusedScore false .unavailable cityText.toList) ∧
    (predict false .unavailable cityText).label = "REAL" := by
  have hf : fusedScore false .unavailable cityText.toList = 0 := by
    show (ruleAnalyze cityText.toList).fake_score = 0
    exact ruleFake_city
  refine ⟨(claim_C7 false .unavailable cityText (by decide)).1, ?_⟩
  refine (claim_C7 false .unavailable cityText (by decide)).2 ?_
  rw [hf]
  norm_num

/-- C8: assuming any external classification confidence lies in the unit
interval, the verdict's fake_score and confidence lie in the closed unit
interval, and the heuristic score is the sum of non-negative contributions
clamped above by 1.0. -/
theorem claim_C8 (u : Bool) (e : ExternalOutcome) (t : String) (he : outcomeBounded e) :
    (0 ≤ (predict u e t).fake_score ∧ (predict u e t).fake_score ≤ 1) ∧
    (0 ≤ (predict u e t).confidence ∧ (predict u e t).confidence ≤ 1) ∧
    (ruleAnalyze t.toList).fake_score = min (ruleScores t.toList).sum 1 ∧
    (∀ s ∈ ruleScores t.toList, 0 ≤ s) := by
  refine ⟨?_, ?_, rfl, ruleScores_nonneg t.toList⟩ <;>
    by_cases h : isBlank t
  · simp only [predict, h, if_true]
    constructor <;> norm_num
  · rw [predict_eq_of_not_blank u e t (by simpa using h)]
    obtain ⟨h0, h1⟩ := fusedScore_bounds u e t.toList he
    exact ⟨round3_nonneg h0, round3_le_one h1⟩
  · simp only [predict, h, if_true]
    constructor <;> norm_num
  · rw [predict_eq_of_not_blank u e t (by simpa using h)]
    obtain ⟨h0, h1⟩ := fusedScore_bounds u e t.toList he
    have habs : |fusedScore u e t.toList - 1/2| ≤ 1/2 :=
      abs_le.mpr ⟨by linarith, by linarith⟩
    exact ⟨round3_nonneg (by positivity), round3_le_one (by linarith)⟩

/-- Witness for C8 at a clean external outcome and a concrete text. -/
theorem claim_C8_witness :
    outcomeBounded (ExternalOutcome.ok "negative" (9/10)) ∧
    0 ≤ (predict true (.ok "negative" (9/10)) cityText).fake_score :=
  ⟨⟨by norm_num, by norm_num⟩,
   (claim_C8 true (.ok "negative" (9/10)) cityText ⟨by norm_num, by norm_num⟩).1.1⟩

/-- C9: the sensational-phrase contribution equals
min(0.15 x distinct-match count, 0.5), and therefore, for two texts agreeing
on every other rule contribution, the one matching at least as many distinct
sensational phrases never has a lower fake score. -/
theorem claim_C9 :
    (∀ cs : List Char,
      sensContrib cs = min ((sensationalCount cs : ℚ) * (3/20)) (1/2)) ∧
    (∀ cs₁ cs₂ : List Char,
      bangContrib cs₁ = bangContrib cs₂ →
      capsContrib cs₁ = capsContrib cs₂ →
      suspContrib cs₁ = suspContrib cs₂ →
      lenContrib cs₁ = lenContrib cs₂ →
      sensationalCount cs₁ ≤ sensationalCount cs₂ →
      (ruleAnalyze cs₁).fake_score ≤ (ruleAnalyze cs₂).fake_score) := by
  have hsens : ∀ cs : List Char,
      sensContrib cs = min ((sensationalCount cs : ℚ) * (3/20)) (1/2) := by
    intro cs
    unfold sensContrib
    split_ifs with h
    · rfl
    · have hz : sensationalCount cs = 0 := by omega
      rw [hz]
      norm_num
  refine ⟨hsens, ?_⟩
  intro cs₁ cs₂ hb hc hs hl hcount
  unfold ruleAnalyze
  dsimp only
  rw [ruleScores_sum_eq, ruleScores_sum_eq]
  refine min_le_min ?_ le_rfl
  have hmono : sensContrib cs₁ ≤ sensContrib cs₂ := by
    rw [hsens, hsens]
    refine min_le_min ?_ le_rfl
    exact mul_le_mul_of_nonneg_right (by exact_mod_cast hcount) (by norm_num)
  linarith [hmono]

/-- Witness for C9 at two concrete texts differing only in one sensational
phrase. -/
theorem claim_C9_witness :
    (ruleAnalyze plainSix.toList).fake_score ≤
      (ruleAnalyze plainSeven.toList).fake_score := by
  have hb : bangContrib plainSix.toList = bangContrib plainSeven.toList := by
    rw [bangContrib_eval (show countChar '!' plainSix.toList = 0 by decide)
        (show max (wordCount plainSix.toList) 1 = 6 by decide),
      bangContrib_eval (show countChar '!' plainSeven.toList = 0 by decide)
        (show max (wordCount plainSeven.toList) 1 = 7 by decide)]
    norm_num
  have hc : capsContrib plainSix.toList = capsContrib plainSeven.toList := by
    rw [capsContrib_eval (show upperCount plainSix.toList = 0 by decide)
        (show max (alphaCount plainSix.toList) 1 = 18 by decide),
      capsContrib_eval (show upperCount plainSeven.toList = 0 by decide)
        (show max (alphaCount plainSeven.toList) 1 = 26 by decide)]
    norm_num
  have hsu : suspContrib plainSix.toList = suspContrib plainSeven.toList := by
    rw [suspContrib_eval
        (show occursIn "all caps".toList (lowerList plainSix.toList) = false by decide)
        (show hasTriplePunct plainSix.toList = false by decide)
        (show occursIn youWontBelieve (lowerList plainSix.toList) = false by decide)
        (show occursIn "sponsored content".toList (lowerList plainSix.toList) = false
          by decide),
      suspContrib_eval
        (show occursIn "all caps".toList (lowerList plainSeven.toList) = false by decide)
        (show hasTriplePunct plainSeven.toList = false by decide)
        (show occursIn youWontBelieve (lowerList plainSeven.toList) = false by decide)
        (show occursIn "sponsored content".toList (lowerList plainSeven.toList) = false
          by decide)]
  have hl : lenContrib plainSix.toList = lenContrib plainSeven.toList := by
    rw [lenContrib_eval (show wordCount plainSix.toList = 6 by decide),
      lenContrib_eval (show wordCount plainSeven.toList = 7 by decide)]
    norm_num
  exact claim_C9.2 plainSix.toList plainSeven.toList hb hc hsu hl (by decide)

/-- C10 (implicit): the verdict for blank input carries no method and no
details but records the error "Empty text", while the verdict for non-blank
input carries a method and details and no error; consumers cannot rely on the
method key being present in all cases. -/
theorem claim_C10 (u : Bool) (e : ExternalOutcome) (t : String) :
    (isBlank t = true →
      (predict u e t).method = none ∧ (predict u e t).details = none ∧
      (predict u e t).error = some "Empty text") ∧
    (isBlank t = false →
      (predict u e t).method = some (if u then "hybrid" else "rule-based") ∧
      (predict u e t).details ≠ none ∧ (predict u e t).error = none) := by
  constructor
  · intro h
    simp [predict, h]
  · intro h
    rw [predict_eq_of_not_blank u e t h]
    exact ⟨rfl, by simp, rfl⟩

/-- Witness for C10 at a blank and a non-blank text. -/
theorem claim_C10_witness :
    (predict false .unavailable "  ").method = none ∧
    (predict false .unavailable cityText).error = none :=
  ⟨((claim_C10 false .unavailable "  ").1 (by decide)).1,
   ((claim_C10 false .unavailable cityText).2 (by decide)).2.2⟩

end FakeNews
